import Mathlib



/-!
Shallow embedding of the payment event-reconciliation engine of the
subscription-plan repository (src/server/controller/Paymentcontoller.js and
the Payment / Plan mongoose models).

Conventions of the embedding:
* JS strings that may be absent (`undefined`/`null`) are `Option String`;
  JS truthiness of a string (`""` is falsy) is modelled by the `strOr`
  family of helpers, mirroring the `x || y` idiom of the source.
* Monetary amounts are rationals (`Rat`); the processor reports integer
  minor units (`Int`) and the code divides by 100.
* The mongo store is a `List PaymentRecord`; `findOneAndUpdate` with
  `upsert: true` updates the first matching document or appends a new one
  built from the filter's top-level equality fields plus the update fields
  (an `$or` filter contributes no fields to an inserted document).
  Mongoose wraps an update document without atomic operators in `$set`,
  so every handler below is modelled as a field-patch function.
* Stripe API calls are inputs: a `retrieve` function returning
  `Option _` (`none` = the call threw, which the caller either catches or
  lets propagate, exactly as in the source).
-/

/-- Payment status, from the `status` enum of the Payment mongoose schema. -/
inductive PaymentStatus where
  | pending
  | succeeded
  | failed
  | canceled
deriving DecidableEq, Repr

/-- JS `x || y` on two optional strings: empty string is falsy. -/
def strOr (x y : Option String) : Option String :=
  match x with
  | some s => if s = "" then y else some s
  | none => y

/-- JS `x || null` on an optional string. -/
def strOrNull (x : Option String) : Option String :=
  strOr x none

/-- JS `x || d` when the default is a plain string, yielding a string. -/
def jsOrStr (x : Option String) (d : String) : String :=
  match x with
  | some s => if s = "" then d else s
  | none => d

/-- JS `x || y` on optional numbers: 0 is falsy. -/
def natOr (x y : Option Nat) : Option Nat :=
  match x with
  | some n => if n = 0 then y else some n
  | none => y

/-- JS `!x` for an optional string (absent or empty is falsy). -/
def jsFalsyStr (x : Option String) : Bool :=
  match x with
  | some s => s == ""
  | none => true

/-- The `x / 100` of the source on an integer minor-unit amount: exact
rational division of an integer by 100 (`Rat.divInt a 100 = (a : Rat) / 100`,
see `minor100_eq_div`). -/
def minor100 (a : Int) : Rat :=
  Rat.divInt a 100

/-- Card detail object as it appears on a Stripe payment method or on
`charge.payment_method_details.card`. -/
structure CardObj where
  brand : Option String
  funding : Option String
  last4 : Option String
  exp_month : Option Nat
  exp_year : Option Nat
deriving DecidableEq, Repr

/-- `session.payment_method` object (expanded payment method). -/
structure PaymentMethodObj where
  id : Option String
  card : Option CardObj
deriving DecidableEq, Repr

/-- Stripe checkout session as read by the controller: either the
client-supplied `req.body.session` or the object returned by
`stripe.checkout.sessions.retrieve`. -/
structure CheckoutSession where
  id : Option String
  payment_intent : Option String
  amount_total : Option Int
  currency : Option String
  payment_status : Option String
  payment_method : Option PaymentMethodObj
  metadata_planId : Option String
  raw : String
deriving DecidableEq, Repr

/-- Stripe charge as read by the controller (`pi.charges.data[i]` or a
`charge.succeeded` event object). `card` stands for
`payment_method_details.card`; `none` means the access path
`payment_method_details.card` is absent so reading `.brand` throws. -/
structure ChargeObj where
  id : String
  payment_intent : Option String
  payment_method : Option String
  card : Option CardObj
  raw : String
deriving DecidableEq, Repr

/-- Stripe payment intent as read by the controller. `charges` is
`charges.data`. -/
structure PaymentIntentObj where
  id : String
  amount : Int
  currency : String
  status : String
  payment_method : Option String
  charges : List ChargeObj
  raw : String
deriving DecidableEq, Repr

/-- Stripe invoice as read by `handleInvoicePaymentSucceeded` /
`handleInvoicePaid`. -/
structure Invoice where
  id : String
  payment_intent : Option String
  amount_paid : Int
  currency : String
  subscription : Option String
  customer : Option String
  raw : String
deriving DecidableEq, Repr

/-- One document of the `Payment` collection (mongoose Payment schema).
Fields of the schema that no embedded operation reads or writes
(timestamps, trial and period dates, `stripeCustomerId`, `stripePriceId`)
are omitted.  `stripeRaw` is kept as the raw payload string. -/
structure PaymentRecord where
  user : Option String
  plan : Option String
  amount : Option Rat
  currency : String
  status : PaymentStatus
  stripeCheckoutSessionId : Option String
  stripePaymentIntentId : Option String
  stripePaymentMethodId : Option String
  stripeChargeId : Option String
  stripeSubscriptionId : Option String
  cardBrand : Option String
  cardFunding : String
  cardLast4 : Option String
  cardExpMonth : Option Nat
  cardExpYear : Option Nat
  stripeRaw : String
deriving DecidableEq, Repr

/-- A freshly inserted document before the update is applied: schema
defaults (`cardFunding: "unknown"`, `currency: "INR"`, `status: "pending"`),
everything else absent. -/
def defaultRecord : PaymentRecord :=
  { user := none
    plan := none
    amount := none
    currency := "INR"
    status := .pending
    stripeCheckoutSessionId := none
    stripePaymentIntentId := none
    stripePaymentMethodId := none
    stripeChargeId := none
    stripeSubscriptionId := none
    cardBrand := none
    cardFunding := "unknown"
    cardLast4 := none
    cardExpMonth := none
    cardExpYear := none
    stripeRaw := "" }

/-- Replace the first element satisfying `p` by its image under `f`
(mongo `findOneAndUpdate` touches a single document). -/
def updateFirst {α : Type} (p : α → Bool) (f : α → α) : List α → List α
  | [] => []
  | r :: rs => if p r then f r :: rs else r :: updateFirst p f rs

/-- `findOneAndUpdate(filter, {$set: ...}, {upsert: true})`: update the
first match, or append the update applied to the insert base (filter
equality fields over schema defaults). -/
def upsert {α : Type} (p : α → Bool) (f : α → α) (base : α)
    (store : List α) : List α :=
  if store.any p then updateFirst p f store else store ++ [f base]

/-- One `$or` clause of the identity-resolution filter built by
`saveFrontendSession` (lines 337-343 of the controller). -/
inductive Clause where
  | byPaymentIntent (id : String)
  | byCheckoutSession (id : String)
  | byPlanAmount (plan : String) (amount : Rat)
deriving DecidableEq, Repr

/-- Whether a record matches one filter clause. -/
def clauseMatches : Clause → PaymentRecord → Bool
  | .byPaymentIntent i, r => r.stripePaymentIntentId == some i
  | .byCheckoutSession i, r => r.stripeCheckoutSessionId == some i
  | .byPlanAmount p a, r => r.plan == some p && r.amount == some a

/-- Whether a record matches the `$or` of the clauses. -/
def filterMatches (cs : List Clause) (r : PaymentRecord) : Bool :=
  cs.any (fun c => clauseMatches c r)

/-- The identity-resolution filter of `saveFrontendSession`:
`$or` of `{stripePaymentIntentId}` when present, `{stripeCheckoutSessionId}`
when present, and (unconditionally, per the source) `{plan, amount}`:
the array literal ends with the plan/amount clause and only the two
identifier clauses are conditional (`.filter(Boolean)` drops their
`null` placeholders). -/
def buildFrontendFilter (paymentIntentId sessionId : Option String)
    (planId : String) (amount : Rat) : List Clause :=
  (match paymentIntentId with
   | some i => [Clause.byPaymentIntent i]
   | none => []) ++
  (match sessionId with
   | some i => [Clause.byCheckoutSession i]
   | none => []) ++
  [Clause.byPlanAmount planId amount]

/-- `normalizeFunding` helper (controller lines 405-410). -/
def normalizeFunding (f : String) : String :=
  if f = "" then "unknown"
  else
    let s := f.toLower
    if s = "credit" || s = "debit" || s = "prepaid" then s else "unknown"

/-- The update document (`paymentData`) assembled by `saveFrontendSession`;
exactly the keys that end up in the `$set`. -/
structure FrontendPaymentData where
  plan : Option String
  amount : Rat
  currency : String
  status : PaymentStatus
  stripeCheckoutSessionId : Option String
  stripePaymentIntentId : Option String
  stripePaymentMethodId : Option String
  stripeChargeId : Option String
  cardBrand : Option String
  cardFunding : String
  cardLast4 : Option String
  cardExpMonth : Option Nat
  cardExpYear : Option Nat
  stripeRaw : String
deriving DecidableEq, Repr

/-- `paymentData` as initialised from the session alone
(controller lines 270-304): amounts, status from `payment_status`,
identifiers, and card fields extracted from `session.payment_method.card`
when present. -/
def basePaymentData (session : Option CheckoutSession) (planId : String)
    (planPrice : Rat) (envCurrency : Option String) : FrontendPaymentData :=
  let amount : Rat :=
    match session.bind (·.amount_total) with
    | some a => if a = 0 then planPrice else minor100 a
    | none => planPrice
  let pd0 : FrontendPaymentData :=
    { plan := some planId
      amount := amount
      currency := jsOrStr (session.bind (·.currency)) (jsOrStr envCurrency "inr")
      status :=
        if session.bind (·.payment_status) == some "paid" then .succeeded
        else .pending
      stripeCheckoutSessionId := strOrNull (session.bind (·.id))
      stripePaymentIntentId := strOrNull (session.bind (·.payment_intent))
      stripePaymentMethodId :=
        strOrNull ((session.bind (·.payment_method)).bind (·.id))
      stripeChargeId := none
      cardBrand := none
      cardFunding := "unknown"
      cardLast4 := none
      cardExpMonth := none
      cardExpYear := none
      stripeRaw := (session.map (·.raw)).getD "{}" }
  match (session.bind (·.payment_method)).bind (·.card) with
  | some card =>
      { pd0 with
        cardBrand := strOrNull card.brand
        cardFunding :=
          match card.funding with
          | some f => if f = "" then "unknown" else normalizeFunding f
          | none => "unknown"
        cardLast4 := strOrNull card.last4
        cardExpMonth := natOr card.exp_month none
        cardExpYear := natOr card.exp_year none }
  | none => pd0

/-- Enrichment of `paymentData` from a successfully retrieved payment
intent (controller lines 310-330): amount/currency/status refreshed when
truthy, then charge id, payment method and card detail from the first
charge when present, with the `|| paymentData.x` fill-if-empty rule. -/
def enrichPaymentData (pd : FrontendPaymentData) (pi : PaymentIntentObj) :
    FrontendPaymentData :=
  let pdA :=
    { pd with
      amount := if pi.amount == 0 then pd.amount else minor100 pi.amount
      currency := if pi.currency = "" then pd.currency else pi.currency
      status := if pi.status = "succeeded" then .succeeded else pd.status }
  match pi.charges.head? with
  | none => pdA
  | some charge =>
    let pdB :=
      { pdA with
        stripeChargeId := some charge.id
        stripePaymentMethodId := strOr charge.payment_method pi.payment_method }
    match charge.card with
    | none => pdB
    | some card =>
      { pdB with
        cardBrand := strOr card.brand pdB.cardBrand
        cardFunding :=
          match card.funding with
          | some f => if f = "" then pdB.cardFunding else normalizeFunding f
          | none => pdB.cardFunding
        cardLast4 := strOr card.last4 pdB.cardLast4
        cardExpMonth := natOr card.exp_month pdB.cardExpMonth
        cardExpYear := natOr card.exp_year pdB.cardExpYear }

/-- The inputs `saveFrontendSession` works from: the request body
(`session`, `plan._id`), the Plan collection (id to `Price`), whether a
Stripe client could be initialised, the outcome of
`stripe.paymentIntents.retrieve` (none = the call threw, caught at line
331), and `process.env.STRIPE_CURRENCY`. -/
structure SaveInput where
  session : Option CheckoutSession
  planFromClientId : Option String
  plans : String → Option Rat
  stripeConfigured : Bool
  retrieve : String → Option PaymentIntentObj
  envCurrency : Option String

/-- Full `paymentData` of `saveFrontendSession` including the
best-effort enrichment step, which runs only when a Stripe client exists
and a payment-intent id is present, and is skipped when the retrieve
throws. -/
def frontendPaymentData (i : SaveInput) (planId : String) (planPrice : Rat) :
    FrontendPaymentData :=
  let pd := basePaymentData i.session planId planPrice i.envCurrency
  if i.stripeConfigured then
    match strOrNull (i.session.bind (·.payment_intent)) with
    | some piId =>
      match i.retrieve piId with
      | some pi => enrichPaymentData pd pi
      | none => pd
    | none => pd
  else pd

/-- Apply the `$set` of `saveFrontendSession` to a document. Fields not in
`paymentData` (`user`, `stripeSubscriptionId`, ...) are untouched. -/
def applyFrontendData (pd : FrontendPaymentData) (r : PaymentRecord) :
    PaymentRecord :=
  { r with
    plan := pd.plan
    amount := some pd.amount
    currency := pd.currency
    status := pd.status
    stripeCheckoutSessionId := pd.stripeCheckoutSessionId
    stripePaymentIntentId := pd.stripePaymentIntentId
    stripePaymentMethodId := pd.stripePaymentMethodId
    stripeChargeId := pd.stripeChargeId
    cardBrand := pd.cardBrand
    cardFunding := pd.cardFunding
    cardLast4 := pd.cardLast4
    cardExpMonth := pd.cardExpMonth
    cardExpYear := pd.cardExpYear
    stripeRaw := pd.stripeRaw }

/-- Outcome of `saveFrontendSession` (HTTP 400 / 404 / the success path;
the catch-all 500 cannot trigger in the embedded fragment). -/
inductive SaveOutcome where
  | badRequest
  | planNotFound
  | saved (store : List PaymentRecord)
deriving DecidableEq, Repr

/-- `saveFrontendSession` (controller lines 254-364): resolve the plan id
from session metadata or the client payload, look the plan up, build
`paymentData`, build the `$or` identity filter and run the atomic upsert. -/
def saveFrontendSession (i : SaveInput) (store : List PaymentRecord) :
    SaveOutcome :=
  let planId? := strOr (i.session.bind (·.metadata_planId)) i.planFromClientId
  if jsFalsyStr planId? then .badRequest
  else
    let planId := planId?.getD ""
    match i.plans planId with
    | none => .planNotFound
    | some planPrice =>
      let sessionId := strOrNull (i.session.bind (·.id))
      let paymentIntentId := strOrNull (i.session.bind (·.payment_intent))
      let pd := frontendPaymentData i planId planPrice
      let filt := buildFrontendFilter paymentIntentId sessionId planId pd.amount
      .saved (upsert (filterMatches filt) (applyFrontendData pd)
        defaultRecord store)

/-- The store after `saveFrontendSession`: unchanged on the error
responses, the upserted store on success. -/
def saveStore (i : SaveInput) (store : List PaymentRecord) :
    List PaymentRecord :=
  match saveFrontendSession i store with
  | .saved st => st
  | _ => store

/-- Outcome of `markSessionCanceled` (controller lines 367-402):
HTTP 400 when the session id is missing, 500 when Stripe is not
configured or the retrieve throws (the `!session` 404 guard is
unreachable: a resolved retrieve always yields an object), else the
success path. -/
inductive CancelOutcome where
  | badRequest
  | notConfigured
  | fetchError
  | saved (store : List PaymentRecord)
deriving DecidableEq, Repr

/-- `markSessionCanceled`: re-fetch the session from Stripe by the
caller-supplied id, build a minimal payment document with
`status: "canceled"` and upsert it keyed on the checkout-session id.
The caller supplies nothing but the id; every stored field comes from
the fetched session. -/
def markSessionCanceled (stripeConfigured : Bool)
    (retrieveSession : String → Option CheckoutSession)
    (envCurrency : Option String) (sessionId : Option String)
    (store : List PaymentRecord) : CancelOutcome :=
  match sessionId with
  | none => .badRequest
  | some sid =>
    if !stripeConfigured then .notConfigured
    else
      match retrieveSession sid with
      | none => .fetchError
      | some session =>
        let pd : PaymentRecord → PaymentRecord := fun r =>
          { r with
            plan := strOrNull session.metadata_planId
            amount := some (minor100 ((session.amount_total).getD 0))
            currency := jsOrStr session.currency (jsOrStr envCurrency "inr")
            status := .canceled
            stripeCheckoutSessionId := session.id
            stripePaymentIntentId := strOrNull session.payment_intent
            stripeRaw := session.raw }
        .saved (upsert (fun r => r.stripeCheckoutSessionId == session.id) pd
          { defaultRecord with stripeCheckoutSessionId := session.id } store)

/-- The store after `markSessionCanceled`: unchanged on the error
responses, the upserted store on success. -/
def cancelStore (stripeConfigured : Bool)
    (retrieveSession : String → Option CheckoutSession)
    (envCurrency : Option String) (sessionId : Option String)
    (store : List PaymentRecord) : List PaymentRecord :=
  match markSessionCanceled stripeConfigured retrieveSession envCurrency
      sessionId store with
  | .saved st => st
  | _ => store

/-- `handleInvoicePaymentSucceeded` (controller lines 521-550). The
`stripe.paymentIntents.retrieve` call is NOT wrapped in a local
try/catch: a missing payment-intent id, a failed retrieve, an empty
charge list or missing card detail throws out of the handler (`none`).
The update document's `customerId` key has no path in the Payment
schema, so strict-mode mongoose drops it. -/
def handleInvoicePaymentSucceeded
    (retrieve : String → Option PaymentIntentObj) (inv : Invoice)
    (store : List PaymentRecord) : Option (List PaymentRecord) :=
  match inv.payment_intent with
  | none => none
  | some piId =>
    match retrieve piId with
    | none => none
    | some pi =>
      match pi.charges.head? with
      | none => none
      | some charge =>
        match charge.card with
        | none => none
        | some card =>
          let pd : PaymentRecord → PaymentRecord := fun r =>
            { r with
              amount := some (minor100 inv.amount_paid)
              currency := inv.currency
              status := .succeeded
              stripePaymentIntentId := some piId
              stripeChargeId := some charge.id
              stripeSubscriptionId := inv.subscription
              cardBrand := card.brand
              cardLast4 := card.last4
              stripeRaw := inv.raw }
          some (upsert (fun r => r.stripePaymentIntentId == some piId) pd
            { defaultRecord with stripePaymentIntentId := some piId } store)

/-- The update document of `handlePaymentIntentSucceeded` applied as a
`$set` patch. -/
def piSucceededPatch (pi : PaymentIntentObj) (charge : ChargeObj)
    (card : CardObj) (r : PaymentRecord) : PaymentRecord :=
  { r with
    amount := some (minor100 pi.amount)
    currency := pi.currency
    status := .succeeded
    stripeChargeId := some charge.id
    cardBrand := card.brand
    cardLast4 := card.last4
    stripeRaw := pi.raw }

/-- `handlePaymentIntentSucceeded` (controller lines 555-575): reads the
first charge of the event payload (throws when absent, `none`), then
upserts keyed on the payment-intent id. -/
def handlePaymentIntentSucceeded (pi : PaymentIntentObj)
    (store : List PaymentRecord) : Option (List PaymentRecord) :=
  match pi.charges.head? with
  | none => none
  | some charge =>
    match charge.card with
    | none => none
    | some card =>
      some (upsert (fun r => r.stripePaymentIntentId == some pi.id)
        (piSucceededPatch pi charge card)
        { defaultRecord with stripePaymentIntentId := some pi.id } store)

/-- `handleChargeSucceeded` (controller lines 580-596). -/
def handleChargeSucceeded (charge : ChargeObj)
    (store : List PaymentRecord) : Option (List PaymentRecord) :=
  match charge.card with
  | none => none
  | some card =>
    let pd : PaymentRecord → PaymentRecord := fun r =>
      { r with
        stripePaymentIntentId := charge.payment_intent
        status := .succeeded
        cardBrand := card.brand
        cardLast4 := card.last4
        stripeRaw := charge.raw }
    some (upsert (fun r => r.stripeChargeId == some charge.id) pd
      { defaultRecord with stripeChargeId := some charge.id } store)

/-- `handleInvoicePaid` (controller lines 601-610): plain update, no
upsert option, so nothing is inserted when no record matches. -/
def handleInvoicePaid (inv : Invoice) (store : List PaymentRecord) :
    List PaymentRecord :=
  updateFirst (fun r => r.stripePaymentIntentId == inv.payment_intent)
    (fun r => { r with status := .succeeded }) store

/-- Period fields of a Plan document touched by the schedule tracker. -/
structure PlanPeriods where
  currentPeriodStart : Option Int
  currentPeriodEnd : Option Int
deriving DecidableEq, Repr

/-- One phase of a subscription schedule (Unix-second timestamps). -/
structure Phase where
  start_date : Option Int
  end_date : Option Int
deriving DecidableEq, Repr

/-- A subscription-schedule event object. -/
structure ScheduleObj where
  id : String
  metadata_planId : Option String
  phases : List Phase
deriving DecidableEq, Repr

/-- The common body of `handleSubscriptionScheduleCreated` /
`Completed` / `Updated`: when the metadata carries a plan id and the
first phase has a truthy start or end date, write those dates
(milliseconds, i.e. seconds times 1000) onto the plan via
`findByIdAndUpdate` (update only, no upsert). -/
def applySchedulePeriods (schedule : ScheduleObj)
    (plans : List (String × PlanPeriods)) : List (String × PlanPeriods) :=
  match strOrNull schedule.metadata_planId with
  | none => plans
  | some planId =>
    match schedule.phases.head? with
    | none => plans
    | some phase =>
      let hasStart : Bool := match phase.start_date with
        | some t => t != 0
        | none => false
      let hasEnd : Bool := match phase.end_date with
        | some t => t != 0
        | none => false
      if hasStart || hasEnd then
        updateFirst (fun kv => kv.1 == planId)
          (fun kv =>
            let pp := kv.2
            let pp := if hasStart then
                { pp with currentPeriodStart := phase.start_date.map (· * 1000) }
              else pp
            let pp := if hasEnd then
                { pp with currentPeriodEnd := phase.end_date.map (· * 1000) }
              else pp
            (kv.1, pp)) plans
      else plans

/-- A verified webhook event, one constructor per `case` of the
dispatcher's switch. `checkoutSessionCompleted` has a constructor of its
own to record that the switch has NO case for that type: it falls
through to the `default` branch. `otherType` stands for every remaining
unrecognized type. -/
inductive WebhookEvent where
  | invoicePaymentSucceeded (inv : Invoice)
  | paymentIntentSucceeded (pi : PaymentIntentObj)
  | chargeSucceeded (charge : ChargeObj)
  | invoicePaid (inv : Invoice)
  | subscriptionCreated (id : String)
  | subscriptionUpdated (id : String)
  | scheduleCreated (s : ScheduleObj)
  | scheduleCompleted (s : ScheduleObj)
  | scheduleCanceled (s : ScheduleObj)
  | scheduleReleased (s : ScheduleObj)
  | scheduleUpdated (s : ScheduleObj)
  | scheduleExpiring (s : ScheduleObj)
  | checkoutSessionCompleted (s : CheckoutSession)
  | otherType (tag : String)

/-- Payment collection plus Plan period state, the mutable state the
webhook endpoint can touch. -/
def WebhookState : Type :=
  List PaymentRecord × List (String × PlanPeriods)

/-- The switch of `handleWebhook` (controller lines 448-503): payment
handlers may throw (`none`, answered 500 by the caller); the schedule
handlers catch their own errors; subscription, schedule
canceled/released/expiring, the absent `checkout.session.completed`
case and unknown types only log. -/
def dispatchEvent (retrieve : String → Option PaymentIntentObj)
    (e : WebhookEvent) (st : WebhookState) : Option WebhookState :=
  match e with
  | .invoicePaymentSucceeded inv =>
      (handleInvoicePaymentSucceeded retrieve inv st.1).map (fun p => (p, st.2))
  | .paymentIntentSucceeded pi =>
      (handlePaymentIntentSucceeded pi st.1).map (fun p => (p, st.2))
  | .chargeSucceeded ch =>
      (handleChargeSucceeded ch st.1).map (fun p => (p, st.2))
  | .invoicePaid inv => some (handleInvoicePaid inv st.1, st.2)
  | .subscriptionCreated _ => some st
  | .subscriptionUpdated _ => some st
  | .scheduleCreated s => some (st.1, applySchedulePeriods s st.2)
  | .scheduleCompleted s => some (st.1, applySchedulePeriods s st.2)
  | .scheduleCanceled _ => some st
  | .scheduleReleased _ => some st
  | .scheduleUpdated s => some (st.1, applySchedulePeriods s st.2)
  | .scheduleExpiring _ => some st
  | .checkoutSessionCompleted _ => some st
  | .otherType _ => some st

/-- Request environment of the webhook endpoint: presence of the
`stripe-signature` header, presence of `STRIPE_WEBHOOK_SECRET`, whether
`stripe.webhooks.constructEvent` verifies the raw body, and the Stripe
client used by the invoice handler. -/
structure WebhookEnv where
  sigPresent : Bool
  secretConfigured : Bool
  verifies : Bool
  retrieve : String → Option PaymentIntentObj

/-- `handleWebhook` (controller lines 417-511): reject with 400 when the
signature header is absent, 500 when the webhook secret is missing, 400
when verification fails — each before any handler runs — then dispatch,
answering 500 when the handler throws and 200 otherwise. -/
def handleWebhook (env : WebhookEnv) (e : WebhookEvent)
    (st : WebhookState) : Nat × WebhookState :=
  if !env.sigPresent then (400, st)
  else if !env.secretConfigured then (500, st)
  else if !env.verifies then (400, st)
  else
    match dispatchEvent env.retrieve e st with
    | some st2 => (200, st2)
    | none => (500, st)

/-- `getPaymentHistory` (controller lines 137-156): the documents of the
Payment collection whose `user` equals the requested user id (sorting and
population do not change membership and are not modelled). -/
def getPaymentHistory (userId : String) (store : List PaymentRecord) :
    List PaymentRecord :=
  store.filter (fun r => r.user == some userId)

/-- A store evolved from `init` by frontend session saves only. -/
def runFrontendSaves (inputs : List SaveInput)
    (init : List PaymentRecord) : List PaymentRecord :=
  inputs.foldl (fun st i => saveStore i st) init

/-- Number of records resolvable by a given payment-intent id. -/
def countByPaymentIntent (x : String) (store : List PaymentRecord) : Nat :=
  (store.filter (fun r => r.stripePaymentIntentId == some x)).length

/-- Concrete paid checkout session used for the C3 counterexample. -/
def c3Session : CheckoutSession :=
  { id := some "cs_3", payment_intent := some "pi_3", amount_total := some 500,
    currency := some "usd", payment_status := some "paid",
    payment_method := none, metadata_planId := some "p3", raw := "evt3" }

/-- Concrete paid checkout session used for the C4 counterexample. -/
def c4Session : CheckoutSession :=
  { id := some "cs_4", payment_intent := some "pi_4", amount_total := some 700,
    currency := some "usd", payment_status := some "paid",
    payment_method := none, metadata_planId := some "p4", raw := "sess4" }

/-- Concrete invoice used for the C7 counterexample. -/
def c7Invoice : Invoice :=
  { id := "in_7", payment_intent := some "pi_7", amount_paid := 500,
    currency := "usd", subscription := none, customer := none, raw := "inv7" }

/-- Concrete stored record with a known card brand, for C5. -/
def c5Record : PaymentRecord :=
  { defaultRecord with
      plan := some "p5", amount := some 10, status := .succeeded,
      stripePaymentIntentId := some "pi_5", cardBrand := some "visa",
      cardLast4 := some "4242" }

/-- Concrete frontend save carrying no card data, for C5. -/
def c5Input : SaveInput :=
  { session := some
      { id := some "cs_5", payment_intent := some "pi_5"
        amount_total := some 1000, currency := some "usd"
        payment_status := some "paid", payment_method := none
        metadata_planId := some "p5", raw := "s5" }
    planFromClientId := none
    plans := fun q => if q == "p5" then some 10 else none
    stripeConfigured := false
    retrieve := fun _ => none
    envCurrency := none }

/-- Concrete succeeded record, for C2. -/
def c2Record : PaymentRecord :=
  { defaultRecord with
      plan := some "p2", amount := some 10, status := .succeeded,
      stripePaymentIntentId := some "pi_2" }

/-- Concrete pending-implying session (payment_status "unpaid") for the
payment intent of c2Record, for C2. -/
def c2Session : CheckoutSession :=
  { id := some "cs_2", payment_intent := some "pi_2"
    amount_total := some 1000, currency := some "usd"
    payment_status := some "unpaid", payment_method := none
    metadata_planId := some "p2", raw := "s2" }

/-- C2 frontend save with no Stripe client configured. -/
def c2Input : SaveInput :=
  { session := some c2Session
    planFromClientId := none
    plans := fun q => if q == "p2" then some 10 else none
    stripeConfigured := false
    retrieve := fun _ => none
    envCurrency := none }

/-- C2 frontend save with a Stripe client configured whose retrieve throws. -/
def c2InputFail : SaveInput :=
  { session := some c2Session
    planFromClientId := none
    plans := fun q => if q == "p2" then some 10 else none
    stripeConfigured := true
    retrieve := fun _ => none
    envCurrency := none }

/-- Retrieved payment intent that has not succeeded yet, for C2. -/
def c2PiProcessing : PaymentIntentObj :=
  { id := "pi_2", amount := 1000, currency := "usd", status := "processing"
    payment_method := none, charges := [], raw := "pi2p" }

/-- C2 frontend save whose retrieve reports a non-succeeded intent. -/
def c2InputBad : SaveInput :=
  { session := some c2Session
    planFromClientId := none
    plans := fun q => if q == "p2" then some 10 else none
    stripeConfigured := true
    retrieve := fun q => if q == "pi_2" then some c2PiProcessing else none
    envCurrency := none }

/-- Retrieved payment intent reporting success, for C2. -/
def c2PiSucceeded : PaymentIntentObj :=
  { id := "pi_2", amount := 1000, currency := "usd", status := "succeeded"
    payment_method := none, charges := [], raw := "pi2s" }

/-- C2 frontend save whose retrieve reports a succeeded intent. -/
def c2InputOk : SaveInput :=
  { session := some c2Session
    planFromClientId := none
    plans := fun q => if q == "p2" then some 10 else none
    stripeConfigured := true
    retrieve := fun q => if q == "pi_2" then some c2PiSucceeded else none
    envCurrency := none }

/-- Concrete paid checkout session for the C1 witness. -/
def c1Session : CheckoutSession :=
  { id := some "cs_1", payment_intent := some "pi_1"
    amount_total := some 500, currency := some "usd"
    payment_status := some "paid", payment_method := none
    metadata_planId := some "p1", raw := "s1" }

/-- Concrete frontend save carrying the C1 session. -/
def c1Input : SaveInput :=
  { session := some c1Session
    planFromClientId := none
    plans := fun q => if q == "p1" then some 5 else none
    stripeConfigured := false
    retrieve := fun _ => none
    envCurrency := none }

/-- Concrete payment_intent.succeeded payload for the C1 witness. -/
def c1Pi : PaymentIntentObj :=
  { id := "pi_1", amount := 500, currency := "usd", status := "succeeded"
    payment_method := none
    charges := [{ id := "ch_1", payment_intent := some "pi_1"
                  payment_method := none
                  card := some { brand := some "visa", funding := none
                                 last4 := some "4242", exp_month := none
                                 exp_year := none }
                  raw := "ch1" }]
    raw := "pi1" }

/-- A detail-less record carrying only the fallback pair (plan p1, amount 5)
and none of the three identifiers - the shape a browser-reported save racing
a not-yet-delivered webhook leaves behind - for the C1 counterexample. -/
def c1Detailless : PaymentRecord :=
  { defaultRecord with plan := some "p1", amount := some (minor100 500) }

/-- Concrete frontend save for the C10 witness. -/
def c10Input : SaveInput :=
  { session := some
      { id := some "cs_10", payment_intent := none
        amount_total := some 200, currency := none
        payment_status := some "paid", payment_method := none
        metadata_planId := some "p10", raw := "s10" }
    planFromClientId := none
    plans := fun q => if q == "p10" then some 2 else none
    stripeConfigured := false
    retrieve := fun _ => none
    envCurrency := none }


theorem minor100_eq_div (a : Int) : minor100 a = (a : Rat) / 100 := by
  rw [minor100, Rat.divInt_eq_div]
  norm_num

section StoreLemmas

variable {α : Type}

theorem updateFirst_append_of_no_match (p : α → Bool) (f : α → α)
    (store : List α) (r : α) (h : store.any p = false) :
    updateFirst p f (store ++ [r]) =
      store ++ [if p r then f r else r] := by
  induction store with
  | nil => simp [updateFirst, apply_ite (fun x => [x])]
  | cons x xs ih =>
    simp only [List.any_cons, Bool.or_eq_false_iff] at h
    simp [updateFirst, h.1, ih h.2]

theorem mem_updateFirst (p : α → Bool) (f : α → α) (l : List α) (r : α)
    (h : r ∈ updateFirst p f l) : r ∈ l ∨ ∃ x ∈ l, r = f x := by
  induction l with
  | nil => simp [updateFirst] at h
  | cons x xs ih =>
    by_cases hx : p x
    · simp only [updateFirst, if_pos hx, List.mem_cons] at h
      rcases h with h | h
      · exact Or.inr ⟨x, List.mem_cons_self x xs, h⟩
      · exact Or.inl (List.mem_cons_of_mem x h)
    · simp only [updateFirst, if_neg hx, List.mem_cons] at h
      rcases h with h | h
      · exact Or.inl (h ▸ List.mem_cons_self x xs)
      · rcases ih h with h2 | ⟨y, hy, hr⟩
        · exact Or.inl (List.mem_cons_of_mem x h2)
        · exact Or.inr ⟨y, List.mem_cons_of_mem x hy, hr⟩

theorem upsert_of_no_match (p : α → Bool) (f : α → α) (base : α)
    (store : List α) (h : store.any p = false) :
    upsert p f base store = store ++ [f base] := by
  simp [upsert, h]

theorem mem_upsert (p : α → Bool) (f : α → α) (base : α)
    (store : List α) (r : α) (h : r ∈ upsert p f base store) :
    r ∈ store ∨ (∃ x ∈ store, r = f x) ∨ r = f base := by
  unfold upsert at h
  by_cases hany : store.any p
  · rw [if_pos hany] at h
    rcases mem_updateFirst p f store r h with h2 | h2
    · exact Or.inl h2
    · exact Or.inr (Or.inl h2)
  · rw [if_neg hany, List.mem_append, List.mem_singleton] at h
    rcases h with h2 | h2
    · exact Or.inl h2
    · exact Or.inr (Or.inr h2)

theorem any_eq_false_of_forall (p : α → Bool) (store : List α)
    (h : ∀ r ∈ store, p r = false) : store.any p = false := by
  simp only [List.any_eq_false]
  intro x hx
  simp [h x hx]

end StoreLemmas

section PaymentDataLemmas

theorem basePaymentData_status (sess : Option CheckoutSession)
    (planId : String) (price : Rat) (envC : Option String) :
    (basePaymentData sess planId price envC).status =
      if sess.bind (·.payment_status) == some "paid" then .succeeded
      else .pending := by
  unfold basePaymentData
  cases h : (sess.bind (·.payment_method)).bind (·.card) <;> simp [h]

theorem basePaymentData_stripePaymentIntentId (sess : Option CheckoutSession)
    (planId : String) (price : Rat) (envC : Option String) :
    (basePaymentData sess planId price envC).stripePaymentIntentId =
      strOrNull (sess.bind (·.payment_intent)) := by
  unfold basePaymentData
  cases h : (sess.bind (·.payment_method)).bind (·.card) <;> simp [h]

theorem enrichPaymentData_stripePaymentIntentId (pd : FrontendPaymentData)
    (pi : PaymentIntentObj) :
    (enrichPaymentData pd pi).stripePaymentIntentId =
      pd.stripePaymentIntentId := by
  unfold enrichPaymentData
  cases h : pi.charges.head? with
  | none => simp [h]
  | some charge => cases h2 : charge.card <;> simp [h, h2]

theorem enrichPaymentData_status (pd : FrontendPaymentData)
    (pi : PaymentIntentObj) :
    (enrichPaymentData pd pi).status =
      if pi.status = "succeeded" then .succeeded else pd.status := by
  unfold enrichPaymentData
  cases h : pi.charges.head? with
  | none => simp [h]
  | some charge => cases h2 : charge.card <;> simp [h, h2]

theorem frontendPaymentData_stripePaymentIntentId (i : SaveInput)
    (planId : String) (price : Rat) :
    (frontendPaymentData i planId price).stripePaymentIntentId =
      strOrNull (i.session.bind (·.payment_intent)) := by
  unfold frontendPaymentData
  cases i.stripeConfigured with
  | false => simp [basePaymentData_stripePaymentIntentId]
  | true =>
    cases h : strOrNull (i.session.bind (·.payment_intent)) with
    | none => simp [h, basePaymentData_stripePaymentIntentId]
    | some piId =>
      cases hr : i.retrieve piId <;>
        simp [h, hr, basePaymentData_stripePaymentIntentId,
          enrichPaymentData_stripePaymentIntentId]

theorem frontendPaymentData_status_paid (i : SaveInput) (planId : String)
    (price : Rat) (s : CheckoutSession) (hs : i.session = some s)
    (hpaid : s.payment_status = some "paid") :
    (frontendPaymentData i planId price).status = .succeeded := by
  have hbase : (basePaymentData i.session planId price i.envCurrency).status
      = .succeeded := by
    rw [basePaymentData_status, hs]
    simp [Option.bind, hpaid]
  unfold frontendPaymentData
  cases i.stripeConfigured with
  | false => simpa using hbase
  | true =>
    cases h : strOrNull (i.session.bind (·.payment_intent)) with
    | none => simpa [h] using hbase
    | some piId =>
      cases hr : i.retrieve piId with
      | none => simpa [h, hr] using hbase
      | some pi =>
        simp only [h, hr, if_true]
        rw [enrichPaymentData_status, hbase]
        split <;> rfl

end PaymentDataLemmas

theorem frontendPaymentData_not_configured (i : SaveInput) (planId : String)
    (price : Rat) (hcfg : i.stripeConfigured = false) :
    frontendPaymentData i planId price =
      basePaymentData i.session planId price i.envCurrency := by
  unfold frontendPaymentData
  simp [hcfg]

theorem frontendPaymentData_fetch_failed (i : SaveInput) (planId : String)
    (price : Rat) (s : CheckoutSession) (piX : String)
    (hs : i.session = some s) (hX : s.payment_intent = some piX)
    (hXne : piX ≠ "") (hfail : i.retrieve piX = none) :
    frontendPaymentData i planId price =
      basePaymentData i.session planId price i.envCurrency := by
  unfold frontendPaymentData
  have hso : strOrNull (i.session.bind (·.payment_intent)) = some piX := by
    simp [hs, Option.bind, hX, strOrNull, strOr, hXne]
  cases i.stripeConfigured <;> simp [hso, hfail]

theorem frontendPaymentData_enriched (i : SaveInput) (planId : String)
    (price : Rat) (s : CheckoutSession) (piX : String) (pi : PaymentIntentObj)
    (hs : i.session = some s) (hX : s.payment_intent = some piX)
    (hXne : piX ≠ "") (hcfg : i.stripeConfigured = true)
    (hret : i.retrieve piX = some pi) :
    frontendPaymentData i planId price =
      enrichPaymentData (basePaymentData i.session planId price i.envCurrency)
        pi := by
  unfold frontendPaymentData
  have hso : strOrNull (i.session.bind (·.payment_intent)) = some piX := by
    simp [hs, Option.bind, hX, strOrNull, strOr, hXne]
  simp [hcfg, hso, hret]

theorem saveFrontendSession_success (i : SaveInput) (p : String)
    (price : Rat) (store : List PaymentRecord)
    (hplanId : strOr (i.session.bind (·.metadata_planId)) i.planFromClientId
      = some p)
    (hpne : p ≠ "") (hplan : i.plans p = some price) :
    saveFrontendSession i store =
      .saved (upsert
        (filterMatches (buildFrontendFilter
          (strOrNull (i.session.bind (·.payment_intent)))
          (strOrNull (i.session.bind (·.id))) p
          (frontendPaymentData i p price).amount))
        (applyFrontendData (frontendPaymentData i p price))
        defaultRecord store) := by
  unfold saveFrontendSession
  simp [hplanId, jsFalsyStr, hpne, hplan]

theorem saveStore_success (i : SaveInput) (p : String) (price : Rat)
    (store : List PaymentRecord)
    (hplanId : strOr (i.session.bind (·.metadata_planId)) i.planFromClientId
      = some p)
    (hpne : p ≠ "") (hplan : i.plans p = some price) :
    saveStore i store =
      upsert
        (filterMatches (buildFrontendFilter
          (strOrNull (i.session.bind (·.payment_intent)))
          (strOrNull (i.session.bind (·.id))) p
          (frontendPaymentData i p price).amount))
        (applyFrontendData (frontendPaymentData i p price))
        defaultRecord store := by
  rw [saveStore, saveFrontendSession_success i p price store hplanId hpne hplan]

/-- C6 (counterexample): the claim says the fallback plan+amount clause is part
of the lookup only when no strong identifier is present; here the notification
carries the strong identifier pi_1 (and a checkout-session id) and the fallback
clause is nevertheless part of the filter. -/
theorem c6_counterexample :
    (some "pi_1" ≠ (none : Option String)) ∧
    Clause.byPlanAmount "plan_1" 5 ∈
      buildFrontendFilter (some "pi_1") (some "cs_1") "plan_1" 5 := by
  constructor
  · simp
  · simp [buildFrontendFilter]

/-- C6 (amended): the identity-resolution filter built by saveFrontendSession
always contains the fallback plan+amount clause, whether or not a strong
identifier (paymentIntentId or checkoutSessionId) is present; the filter never
contains a charge-id clause. -/
theorem c6_fallback_always_included (pid sid : Option String)
    (planId : String) (amt : Rat) :
    Clause.byPlanAmount planId amt ∈ buildFrontendFilter pid sid planId amt := by
  cases pid <;> cases sid <;> simp [buildFrontendFilter]

/-- C8: the webhook endpoint rejects a request with 400 when the
stripe-signature header is absent, with 500 when no webhook secret is
configured, and with 400 when cryptographic verification fails; in all three
cases the payment store and the plan period state are returned unchanged
(the rejection happens before any handler runs). -/
theorem c8_webhook_rejections (env : WebhookEnv) (e : WebhookEvent)
    (st : WebhookState) :
    (env.sigPresent = false → handleWebhook env e st = (400, st)) ∧
    (env.sigPresent = true → env.secretConfigured = false →
      handleWebhook env e st = (500, st)) ∧
    (env.sigPresent = true → env.secretConfigured = true →
      env.verifies = false → handleWebhook env e st = (400, st)) := by
  refine ⟨fun h1 => ?_, fun h1 h2 => ?_, fun h1 h2 h3 => ?_⟩
  · simp [handleWebhook, h1]
  · simp [handleWebhook, h1, h2]
  · simp [handleWebhook, h1, h2, h3]

/-- C8 (witness): the three rejection cases at concrete requests. -/
theorem c8_webhook_rejections_witness :
    handleWebhook ⟨false, true, true, fun _ => none⟩ (.otherType "t")
      ([], []) = (400, ([], [])) ∧
    handleWebhook ⟨true, false, true, fun _ => none⟩ (.otherType "t")
      ([], []) = (500, ([], [])) ∧
    handleWebhook ⟨true, true, false, fun _ => none⟩ (.otherType "t")
      ([], []) = (400, ([], [])) :=
  ⟨(c8_webhook_rejections ⟨false, true, true, fun _ => none⟩
      (.otherType "t") ([], [])).1 rfl,
   (c8_webhook_rejections ⟨true, false, true, fun _ => none⟩
      (.otherType "t") ([], [])).2.1 rfl rfl,
   (c8_webhook_rejections ⟨true, true, false, fun _ => none⟩
      (.otherType "t") ([], [])).2.2 rfl rfl rfl⟩

/-- C3 (counterexample): a verified webhook event of type
checkout.session.completed whose session has payment_status=paid is
acknowledged with 200 and the store stays empty: no PaymentRecord with
status succeeded (or any record at all) results, contrary to the claim. -/
theorem c3_counterexample :
    c3Session.payment_status = some "paid" ∧
    handleWebhook ⟨true, true, true, fun _ => none⟩
      (.checkoutSessionCompleted c3Session) ([], []) = (200, ([], [])) := by
  exact ⟨rfl, rfl⟩

/-- C3 (amended): the webhook dispatcher has no case for
checkout.session.completed, so a verified event of that type is acknowledged
with the state unchanged and produces no PaymentRecord; the
paid-to-succeeded / otherwise-pending status mapping is applied by the
frontend session-save path (basePaymentData) instead. -/
theorem c3_completed_skipped (env : WebhookEnv) (s : CheckoutSession)
    (st : WebhookState) (planId : String) (price : Rat) (envC : Option String)
    (h1 : env.sigPresent = true) (h2 : env.secretConfigured = true)
    (h3 : env.verifies = true) :
    handleWebhook env (.checkoutSessionCompleted s) st = (200, st) ∧
    (basePaymentData (some s) planId price envC).status =
      (if s.payment_status == some "paid" then .succeeded else .pending) := by
  constructor
  · simp [handleWebhook, h1, h2, h3, dispatchEvent]
  · simpa using basePaymentData_status (some s) planId price envC

/-- C3 (witness): concrete instance of the amended claim. -/
theorem c3_completed_skipped_witness :
    handleWebhook ⟨true, true, true, fun _ => none⟩
      (.checkoutSessionCompleted c3Session) ([], []) = (200, ([], [])) ∧
    (basePaymentData (some c3Session) "p3" 5 none).status =
      (if c3Session.payment_status == some "paid" then .succeeded
       else .pending) :=
  c3_completed_skipped ⟨true, true, true, fun _ => none⟩ c3Session ([], [])
    "p3" 5 none rfl rfl rfl

/-- C4 (counterexample): a cancel-marking call for a session whose re-fetched
processor-side state has payment_status=paid still records status canceled,
contrary to the claim that the status is then not set to canceled. -/
theorem c4_counterexample :
    c4Session.payment_status = some "paid" ∧
    (cancelStore true (fun _ => some c4Session) none (some "cs_4") []).map
      (fun r => r.status) = [.canceled] := by
  exact ⟨rfl, rfl⟩

/-- C4 (amended): markSessionCanceled does re-fetch the session from the
processor by the caller-supplied id and builds the stored record solely from
the fetched state, but it records status canceled unconditionally - also when
the fetched session's payment_status is paid. -/
theorem c4_cancel_unconditional (retrS : String → Option CheckoutSession)
    (sid : String) (sess : CheckoutSession) (envC : Option String)
    (hretr : retrS sid = some sess)
    (hpaid : sess.payment_status = some "paid") :
    (cancelStore true retrS envC (some sid) []).map (fun r => r.status) =
      [.canceled] ∧
    (cancelStore true retrS envC (some sid) []).map
      (fun r => r.stripeCheckoutSessionId) = [sess.id] := by
  simp [cancelStore, markSessionCanceled, hretr, upsert]

/-- C4 (witness): concrete instance of the amended claim. -/
theorem c4_cancel_unconditional_witness :
    (cancelStore true (fun _ => some c4Session) none (some "cs_4") []).map
      (fun r => r.status) = [.canceled] ∧
    (cancelStore true (fun _ => some c4Session) none (some "cs_4") []).map
      (fun r => r.stripeCheckoutSessionId) = [c4Session.id] :=
  c4_cancel_unconditional (fun _ => some c4Session) "cs_4" c4Session none
    rfl rfl

/-- C7 (counterexample): for the invoice.payment_succeeded webhook handler,
a failing enrichment fetch aborts the merge: the store stays empty (the
upsert never runs) and the endpoint answers 500, contrary to the claim that
the upsert still executes on every webhook payment handler performing such
a fetch. -/
theorem c7_counterexample :
    c7Invoice.payment_intent = some "pi_7" ∧
    handleWebhook ⟨true, true, true, fun _ => none⟩
      (.invoicePaymentSucceeded c7Invoice) ([], []) = (500, ([], [])) := by
  exact ⟨rfl, rfl⟩

/-- C7 (amended): a failed enrichment fetch does not abort the frontend
session-save merge - the upsert still executes and the record is saved with
the fields known so far (the session-derived paymentData) - but in the
invoice.payment_succeeded webhook handler the fetch is not guarded, so a
failure aborts the merge and no upsert executes. -/
theorem c7_partial_enrichment (i : SaveInput) (s : CheckoutSession)
    (piX p : String) (price : Rat)
    (retr : String → Option PaymentIntentObj) (inv : Invoice) (pid : String)
    (hs : i.session = some s) (hX : s.payment_intent = some piX)
    (hXne : piX ≠ "") (hmeta : s.metadata_planId = some p) (hpne : p ≠ "")
    (hplan : i.plans p = some price) (hcfg : i.stripeConfigured = true)
    (hfail : i.retrieve piX = none)
    (hinv : inv.payment_intent = some pid) (hrf : retr pid = none) :
    saveFrontendSession i [] =
      .saved [applyFrontendData
        (basePaymentData i.session p price i.envCurrency) defaultRecord] ∧
    handleInvoicePaymentSucceeded retr inv [] = none := by
  constructor
  · have hplanId : strOr (i.session.bind (·.metadata_planId))
        i.planFromClientId = some p := by
      simp [hs, Option.bind, hmeta, strOr, hpne]
    rw [saveFrontendSession_success i p price [] hplanId hpne hplan,
      frontendPaymentData_fetch_failed i p price s piX hs hX hXne hfail]
    simp [upsert]
  · simp [handleInvoicePaymentSucceeded, hinv, hrf]

/-- C7 (witness): concrete instance of the amended claim. -/
theorem c7_partial_enrichment_witness :
    saveFrontendSession
      { session := some
          { id := some "cs_7", payment_intent := some "pi_7"
            amount_total := some 500, currency := some "usd"
            payment_status := some "paid", payment_method := none
            metadata_planId := some "p7", raw := "s7" }
        planFromClientId := none
        plans := fun q => if q == "p7" then some 5 else none
        stripeConfigured := true
        retrieve := fun _ => none
        envCurrency := none } [] =
      .saved [applyFrontendData
        (basePaymentData
          (some
            { id := some "cs_7", payment_intent := some "pi_7"
              amount_total := some 500, currency := some "usd"
              payment_status := some "paid", payment_method := none
              metadata_planId := some "p7", raw := "s7" }) "p7" 5 none)
        defaultRecord] ∧
    handleInvoicePaymentSucceeded (fun _ => none) c7Invoice [] = none :=
  c7_partial_enrichment
    { session := some
        { id := some "cs_7", payment_intent := some "pi_7"
          amount_total := some 500, currency := some "usd"
          payment_status := some "paid", payment_method := none
          metadata_planId := some "p7", raw := "s7" }
      planFromClientId := none
      plans := fun q => if q == "p7" then some 5 else none
      stripeConfigured := true
      retrieve := fun _ => none
      envCurrency := none }
    { id := some "cs_7", payment_intent := some "pi_7"
      amount_total := some 500, currency := some "usd"
      payment_status := some "paid", payment_method := none
      metadata_planId := some "p7", raw := "s7" }
    "pi_7" "p7" 5 (fun _ => none) c7Invoice "pi_7"
    rfl rfl (by decide) rfl (by decide) (by decide) rfl rfl rfl rfl

/-- C9: every merge path that sets an amount from a processor-reported
minor-unit value stores that value divided by 100: the session-derived
paymentData (amount_total), the enrichment step (pi.amount), the
invoice.payment_succeeded handler (amount_paid), the payment_intent.succeeded
handler (pi.amount), and markSessionCanceled (amount_total). -/
theorem c9_minor_unit_normalization
    (s : CheckoutSession) (planId : String) (price : Rat) (envC : Option String)
    (a : Int) (pd : FrontendPaymentData) (pi : PaymentIntentObj)
    (retr : String → Option PaymentIntentObj) (inv : Invoice) (piX : String)
    (retrS : String → Option CheckoutSession) (sid : String)
    (sess : CheckoutSession) (b : Int) (ch : ChargeObj) (cd : CardObj)
    (h1 : s.amount_total = some a) (h2 : a ≠ 0) (h3 : pi.amount ≠ 0)
    (h4 : inv.payment_intent = some piX) (h5 : retr piX = some pi)
    (h6 : pi.charges = [ch]) (h7 : ch.card = some cd)
    (h8 : retrS sid = some sess) (h9 : sess.amount_total = some b) :
    (basePaymentData (some s) planId price envC).amount = (a : Rat) / 100 ∧
    (enrichPaymentData pd pi).amount = (pi.amount : Rat) / 100 ∧
    ((handleInvoicePaymentSucceeded retr inv []).getD []).map
      (fun r => r.amount) = [some ((inv.amount_paid : Rat) / 100)] ∧
    ((handlePaymentIntentSucceeded pi []).getD []).map
      (fun r => r.amount) = [some ((pi.amount : Rat) / 100)] ∧
    (cancelStore true retrS envC (some sid) []).map
      (fun r => r.amount) = [some ((b : Rat) / 100)] := by
  refine ⟨?_, ?_, ?_, ?_, ?_⟩
  · rw [← minor100_eq_div]
    unfold basePaymentData
    cases hc : ((some s : Option CheckoutSession).bind
        (·.payment_method)).bind (·.card) <;>
      simp [hc, Option.bind, h1, h2]
  · rw [← minor100_eq_div]
    unfold enrichPaymentData
    have h3b : (pi.amount == 0) = false := by
      simp [h3]
    cases hh : pi.charges.head? with
    | none => simp [hh, h3b]
    | some charge => cases hc : charge.card <;> simp [hh, hc, h3b]
  · rw [← minor100_eq_div]
    simp [handleInvoicePaymentSucceeded, h4, h5, h6, h7, upsert]
  · rw [← minor100_eq_div]
    simp [handlePaymentIntentSucceeded, piSucceededPatch, h6, h7, upsert]
  · rw [← minor100_eq_div]
    simp [cancelStore, markSessionCanceled, h8, h9, upsert]

/-- C9 (witness): an amount_total of 4999 minor units is stored as
4999 / 100 = 49.99 major units, on each path. -/
theorem c9_minor_unit_normalization_witness :
    (basePaymentData
      (some
        { id := some "cs_9", payment_intent := some "pi_9"
          amount_total := some 4999, currency := some "usd"
          payment_status := some "paid", payment_method := none
          metadata_planId := some "p9", raw := "s9" }) "p9" 5 none).amount =
      (4999 : Rat) / 100 ∧
    (enrichPaymentData
      (basePaymentData none "p9" 5 none)
      { id := "pi_9", amount := 4999, currency := "usd"
        status := "succeeded", payment_method := none
        charges := [{ id := "ch_9", payment_intent := some "pi_9"
                      payment_method := none
                      card := some { brand := some "visa", funding := none
                                     last4 := some "4242", exp_month := none
                                     exp_year := none }
                      raw := "ch9" }]
        raw := "pi9" }).amount = ((4999 : Int) : Rat) / 100 ∧
    ((handleInvoicePaymentSucceeded
      (fun _ => some
        { id := "pi_9", amount := 4999, currency := "usd"
          status := "succeeded", payment_method := none
          charges := [{ id := "ch_9", payment_intent := some "pi_9"
                        payment_method := none
                        card := some { brand := some "visa", funding := none
                                       last4 := some "4242", exp_month := none
                                       exp_year := none }
                        raw := "ch9" }]
          raw := "pi9" })
      { id := "in_9", payment_intent := some "pi_9", amount_paid := 4999
        currency := "usd", subscription := none, customer := none
        raw := "inv9" } []).getD []).map (fun r => r.amount) =
      [some (((4999 : Int) : Rat) / 100)] ∧
    ((handlePaymentIntentSucceeded
      { id := "pi_9", amount := 4999, currency := "usd"
        status := "succeeded", payment_method := none
        charges := [{ id := "ch_9", payment_intent := some "pi_9"
                      payment_method := none
                      card := some { brand := some "visa", funding := none
                                     last4 := some "4242", exp_month := none
                                     exp_year := none }
                      raw := "ch9" }]
        raw := "pi9" } []).getD []).map (fun r => r.amount) =
      [some (((4999 : Int) : Rat) / 100)] ∧
    (cancelStore true
      (fun _ => some
        { id := some "cs_9", payment_intent := some "pi_9"
          amount_total := some 4999, currency := some "usd"
          payment_status := some "unpaid", payment_method := none
          metadata_planId := some "p9", raw := "s9b" }) none
      (some "cs_9") []).map (fun r => r.amount) =
      [some (((4999 : Int) : Rat) / 100)] :=
  c9_minor_unit_normalization
    { id := some "cs_9", payment_intent := some "pi_9"
      amount_total := some 4999, currency := some "usd"
      payment_status := some "paid", payment_method := none
      metadata_planId := some "p9", raw := "s9" } "p9" 5 none
    4999 (basePaymentData none "p9" 5 none)
    { id := "pi_9", amount := 4999, currency := "usd"
      status := "succeeded", payment_method := none
      charges := [{ id := "ch_9", payment_intent := some "pi_9"
                    payment_method := none
                    card := some { brand := some "visa", funding := none
                                   last4 := some "4242", exp_month := none
                                   exp_year := none }
                    raw := "ch9" }]
      raw := "pi9" }
    (fun _ => some
      { id := "pi_9", amount := 4999, currency := "usd"
        status := "succeeded", payment_method := none
        charges := [{ id := "ch_9", payment_intent := some "pi_9"
                      payment_method := none
                      card := some { brand := some "visa", funding := none
                                     last4 := some "4242", exp_month := none
                                     exp_year := none }
                      raw := "ch9" }]
        raw := "pi9" })
    { id := "in_9", payment_intent := some "pi_9", amount_paid := 4999
      currency := "usd", subscription := none, customer := none
      raw := "inv9" } "pi_9"
    (fun _ => some
      { id := some "cs_9", payment_intent := some "pi_9"
        amount_total := some 4999, currency := some "usd"
        payment_status := some "unpaid", payment_method := none
        metadata_planId := some "p9", raw := "s9b" }) "cs_9"
    { id := some "cs_9", payment_intent := some "pi_9"
      amount_total := some 4999, currency := some "usd"
      payment_status := some "unpaid", payment_method := none
      metadata_planId := some "p9", raw := "s9b" } 4999
    { id := "ch_9", payment_intent := some "pi_9", payment_method := none
      card := some { brand := some "visa", funding := none
                     last4 := some "4242", exp_month := none
                     exp_year := none }
      raw := "ch9" }
    { brand := some "visa", funding := none, last4 := some "4242"
      exp_month := none, exp_year := none }
    rfl (by decide) (by decide) rfl rfl rfl rfl rfl rfl

/-- C5 (counterexample): a record with cardBrand "visa" already set, merged
with a later notification for the same payment intent that carries no card
data, has its cardBrand cleared to null, contrary to the claim that a
previously known value is never cleared. -/
theorem c5_counterexample :
    c5Record.cardBrand = some "visa" ∧
    (saveStore c5Input [c5Record]).map (fun r => r.cardBrand) = [none] := by
  exact ⟨rfl, rfl⟩

/-- C5 (amended): the fill-if-empty / override-if-present rule for card fields
applies only between the session payload and the enrichment fetch within one
merge (enrichPaymentData uses the JS or to keep the session-derived value);
the resulting paymentData is then $set unconditionally, so a card value
already stored on the record is cleared to null when the incoming
notification carries no card data. -/
theorem c5_card_fill_scope (pd : FrontendPaymentData) (pi : PaymentIntentObj)
    (ch : ChargeObj) (cd : CardObj) (i : SaveInput) (s : CheckoutSession)
    (piX p : String) (price : Rat) (r : PaymentRecord) (b : String)
    (hch : pi.charges.head? = some ch) (hcd : ch.card = some cd)
    (hs : i.session = some s) (hX : s.payment_intent = some piX)
    (hXne : piX ≠ "") (hnopm : s.payment_method = none)
    (hcfg : i.stripeConfigured = false)
    (hmeta : s.metadata_planId = some p) (hpne : p ≠ "")
    (hplan : i.plans p = some price)
    (hr : r.stripePaymentIntentId = some piX) (hb : r.cardBrand = some b) :
    (enrichPaymentData pd pi).cardBrand = strOr cd.brand pd.cardBrand ∧
    (saveStore i [r]).map (fun x => x.cardBrand) = [none] := by
  constructor
  · unfold enrichPaymentData
    simp [hch, hcd]
  · have hplanId : strOr (i.session.bind (·.metadata_planId))
        i.planFromClientId = some p := by
      simp [hs, Option.bind, hmeta, strOr, hpne]
    rw [saveStore_success i p price [r] hplanId hpne hplan,
      frontendPaymentData_not_configured i p price hcfg]
    have hmatch : filterMatches
        (buildFrontendFilter (strOrNull (i.session.bind (·.payment_intent)))
          (strOrNull (i.session.bind (·.id))) p
          (basePaymentData i.session p price i.envCurrency).amount) r
        = true := by
      simp only [hs, Option.bind, strOrNull, strOr, hXne, hX, if_neg hXne]
      cases hid : s.id with
      | none =>
        simp [filterMatches, buildFrontendFilter, clauseMatches, hr]
      | some sidv =>
        by_cases hse : sidv = "" <;>
          simp [hse, filterMatches, buildFrontendFilter, clauseMatches, hr]
    have hbrand : (basePaymentData i.session p price i.envCurrency).cardBrand
        = none := by
      unfold basePaymentData
      simp [hs, Option.bind, hnopm]
    simp [upsert, updateFirst, hmatch, applyFrontendData, hbrand]

/-- C5 (witness): concrete instance of the amended claim. -/
theorem c5_card_fill_scope_witness :
    (enrichPaymentData (basePaymentData none "p5" 10 none)
      { id := "pi_5", amount := 1000, currency := "usd"
        status := "succeeded", payment_method := none
        charges := [{ id := "ch_5", payment_intent := some "pi_5"
                      payment_method := none
                      card := some { brand := some "mastercard"
                                     funding := none, last4 := some "4444"
                                     exp_month := none, exp_year := none }
                      raw := "ch5" }]
        raw := "pi5" }).cardBrand =
      strOr (some "mastercard")
        (basePaymentData none "p5" 10 none).cardBrand ∧
    (saveStore c5Input [c5Record]).map (fun x => x.cardBrand) = [none] :=
  c5_card_fill_scope (basePaymentData none "p5" 10 none)
    { id := "pi_5", amount := 1000, currency := "usd"
      status := "succeeded", payment_method := none
      charges := [{ id := "ch_5", payment_intent := some "pi_5"
                    payment_method := none
                    card := some { brand := some "mastercard"
                                   funding := none, last4 := some "4444"
                                   exp_month := none, exp_year := none }
                    raw := "ch5" }]
      raw := "pi5" }
    { id := "ch_5", payment_intent := some "pi_5", payment_method := none
      card := some { brand := some "mastercard", funding := none
                     last4 := some "4444", exp_month := none
                     exp_year := none }
      raw := "ch5" }
    { brand := some "mastercard", funding := none, last4 := some "4444"
      exp_month := none, exp_year := none }
    c5Input
    { id := some "cs_5", payment_intent := some "pi_5"
      amount_total := some 1000, currency := some "usd"
      payment_status := some "paid", payment_method := none
      metadata_planId := some "p5", raw := "s5" }
    "pi_5" "p5" 10 c5Record "visa"
    rfl rfl rfl rfl (by decide) rfl rfl rfl (by decide) (by decide) rfl rfl

/-- C2 (counterexample): a record with status succeeded, merged with a later
session save whose payment_status is not "paid" (and with no enrichment
available), has its status overwritten to pending - the status does regress,
contrary to the claim. -/
theorem c2_counterexample :
    c2Record.status = .succeeded ∧
    (saveStore c2Input [c2Record]).map (fun r => r.status) = [.pending] := by
  exact ⟨rfl, rfl⟩

/-- C2 (amended): processing a pending-implying session save over a succeeded
record overwrites the stored status unconditionally with the freshly computed
one: the status regresses to pending when no Stripe client is configured,
when the enrichment retrieve throws, and when the retrieve returns a payment
intent whose status is not "succeeded"; only when the fetch succeeds and
reports the intent as succeeded does the record stay succeeded. -/
theorem c2_status_regression (i : SaveInput) (s : CheckoutSession)
    (piX p : String) (price : Rat) (r : PaymentRecord)
    (piObj : PaymentIntentObj)
    (hs : i.session = some s) (hX : s.payment_intent = some piX)
    (hXne : piX ≠ "") (hnp : s.payment_status ≠ some "paid")
    (hmeta : s.metadata_planId = some p) (hpne : p ≠ "")
    (hplan : i.plans p = some price)
    (hr : r.stripePaymentIntentId = some piX)
    (hrs : r.status = .succeeded) :
    (i.stripeConfigured = false →
      (saveStore i [r]).map (fun x => x.status) = [.pending]) ∧
    (i.stripeConfigured = true → i.retrieve piX = none →
      (saveStore i [r]).map (fun x => x.status) = [.pending]) ∧
    (i.stripeConfigured = true → i.retrieve piX = some piObj →
      piObj.status ≠ "succeeded" →
      (saveStore i [r]).map (fun x => x.status) = [.pending]) ∧
    (i.stripeConfigured = true → i.retrieve piX = some piObj →
      piObj.status = "succeeded" →
      (saveStore i [r]).map (fun x => x.status) = [.succeeded]) := by
  have hplanId : strOr (i.session.bind (·.metadata_planId))
      i.planFromClientId = some p := by
    simp [hs, Option.bind, hmeta, strOr, hpne]
  have hmatch : ∀ amt : Rat, filterMatches
      (buildFrontendFilter (strOrNull (i.session.bind (·.payment_intent)))
        (strOrNull (i.session.bind (·.id))) p amt) r = true := by
    intro amt
    simp only [hs, Option.bind, strOrNull, strOr, hX, if_neg hXne]
    cases hid : s.id with
    | none => simp [filterMatches, buildFrontendFilter, clauseMatches, hr]
    | some sidv =>
      by_cases hse : sidv = "" <;>
        simp [hse, filterMatches, buildFrontendFilter, clauseMatches, hr]
  have hbstat : (basePaymentData i.session p price i.envCurrency).status
      = .pending := by
    rw [basePaymentData_status, hs]
    simp only [Option.bind, hnp]
    have : (s.payment_status == some "paid") = false := by
      simp [hnp]
    simp [this]
  refine ⟨?_, ?_, ?_, ?_⟩
  · intro hcfg
    rw [saveStore_success i p price [r] hplanId hpne hplan,
      frontendPaymentData_not_configured i p price hcfg]
    simp [upsert, updateFirst, hmatch, applyFrontendData, hbstat]
  · intro hcfg hret
    rw [saveStore_success i p price [r] hplanId hpne hplan,
      frontendPaymentData_fetch_failed i p price s piX hs hX hXne hret]
    simp [upsert, updateFirst, hmatch, applyFrontendData, hbstat]
  · intro hcfg hret hbad
    rw [saveStore_success i p price [r] hplanId hpne hplan,
      frontendPaymentData_enriched i p price s piX piObj hs hX hXne hcfg hret]
    have hestat : (enrichPaymentData
        (basePaymentData i.session p price i.envCurrency) piObj).status
        = .pending := by
      rw [enrichPaymentData_status, if_neg hbad, hbstat]
    simp [upsert, updateFirst, hmatch, applyFrontendData, hestat]
  · intro hcfg hret hsucc
    rw [saveStore_success i p price [r] hplanId hpne hplan,
      frontendPaymentData_enriched i p price s piX piObj hs hX hXne hcfg hret]
    have hestat : (enrichPaymentData
        (basePaymentData i.session p price i.envCurrency) piObj).status
        = .succeeded := by
      rw [enrichPaymentData_status, hsucc]
      simp
    simp [upsert, updateFirst, hmatch, applyFrontendData, hestat]

/-- C2 (witness): all four branches of the amended claim exercised
non-vacuously, each at an input satisfying its branch condition: no Stripe
client (pending), configured client with throwing retrieve (pending),
retrieve reporting a non-succeeded intent (pending), retrieve reporting a
succeeded intent (stays succeeded). -/
theorem c2_status_regression_witness :
    (saveStore c2Input [c2Record]).map (fun x => x.status) = [.pending] ∧
    (saveStore c2InputFail [c2Record]).map (fun x => x.status) = [.pending] ∧
    (saveStore c2InputBad [c2Record]).map (fun x => x.status) = [.pending] ∧
    (saveStore c2InputOk [c2Record]).map (fun x => x.status) = [.succeeded] :=
  ⟨(c2_status_regression c2Input c2Session "pi_2" "p2" 10 c2Record
      c2PiSucceeded rfl rfl (by decide) (by decide) rfl (by decide)
      (by decide) rfl rfl).1 rfl,
   (c2_status_regression c2InputFail c2Session "pi_2" "p2" 10 c2Record
      c2PiSucceeded rfl rfl (by decide) (by decide) rfl (by decide)
      (by decide) rfl rfl).2.1 rfl rfl,
   (c2_status_regression c2InputBad c2Session "pi_2" "p2" 10 c2Record
      c2PiProcessing rfl rfl (by decide) (by decide) rfl (by decide)
      (by decide) rfl rfl).2.2.1 rfl (by decide) (by decide),
   (c2_status_regression c2InputOk c2Session "pi_2" "p2" 10 c2Record
      c2PiSucceeded rfl rfl (by decide) (by decide) rfl (by decide)
      (by decide) rfl rfl).2.2.2 rfl (by decide) rfl⟩

theorem applyFrontendData_user (pd : FrontendPaymentData)
    (r : PaymentRecord) : (applyFrontendData pd r).user = r.user :=
  rfl

theorem saveStore_user_invariant (i : SaveInput)
    (store : List PaymentRecord) (h : ∀ r ∈ store, r.user = none) :
    ∀ r ∈ saveStore i store, r.user = none := by
  intro r hr
  unfold saveStore at hr
  split at hr
  case h_1 st heq =>
    unfold saveFrontendSession at heq
    dsimp only at heq
    split at heq
    · cases heq
    · split at heq
      · cases heq
      · injection heq with heq2
        rw [← heq2] at hr
        rcases mem_upsert _ _ _ store r hr with h2 | ⟨x, hx, hfx⟩ | hbase
        · exact h r h2
        · rw [hfx, applyFrontendData_user]
          exact h x hx
        · rw [hbase, applyFrontendData_user]
          rfl
  case h_2 _ _ =>
    exact h r hr

theorem runFrontendSaves_user (inputs : List SaveInput) :
    ∀ store, (∀ r ∈ store, r.user = none) →
      ∀ r ∈ runFrontendSaves inputs store, r.user = none := by
  induction inputs with
  | nil =>
    intro store h
    simpa [runFrontendSaves] using h
  | cons i is ih =>
    intro store h
    have : runFrontendSaves (i :: is) store =
        runFrontendSaves is (saveStore i store) := by
      simp [runFrontendSaves]
    rw [this]
    exact ih (saveStore i store) (saveStore_user_invariant i store h)

/-- C10: every PaymentRecord in a store produced from the empty store by
frontend session saves only has no user reference (saveFrontendSession never
sets the user field, also for an authenticated caller), so the user-filtered
payment-history query returns none of those records for any user id. -/
theorem c10_frontend_saves_invisible_to_history (inputs : List SaveInput)
    (uid : String) :
    (∀ r ∈ runFrontendSaves inputs [], r.user = none) ∧
    getPaymentHistory uid (runFrontendSaves inputs []) = [] := by
  have h := runFrontendSaves_user inputs [] (by simp)
  refine ⟨h, ?_⟩
  unfold getPaymentHistory
  rw [List.filter_eq_nil_iff]
  intro a ha
  simp [h a ha]

theorem handlePaymentIntentSucceeded_eq (pi : PaymentIntentObj)
    (ch : ChargeObj) (cd : CardObj) (store : List PaymentRecord)
    (hch : pi.charges = [ch]) (hcd : ch.card = some cd) :
    handlePaymentIntentSucceeded pi store =
      some (upsert (fun r => r.stripePaymentIntentId == some pi.id)
        (piSucceededPatch pi ch cd)
        { defaultRecord with stripePaymentIntentId := some pi.id } store) := by
  unfold handlePaymentIntentSucceeded
  simp [hch, hcd]

/-- C1 (counterexample): with a prior detail-less record that matches no
identifier of the logical payment X = pi_1 (no payment-intent, no
checkout-session and no charge id - only the fallback pair plan p1 /
amount 5), applying B (payment_intent.succeeded, id pi_1) and then A (the
completed paid session save) leaves TWO records with paymentIntentId pi_1:
the webhook upsert inserts one, and the frontend save's fallback
plan+amount clause then captures the detail-less record instead of the
freshly inserted one - contrary to the claim's "never two records". -/
theorem c1_counterexample :
    (c1Detailless.stripePaymentIntentId = none ∧
     c1Detailless.stripeCheckoutSessionId = none ∧
     c1Detailless.stripeChargeId = none) ∧
    (handlePaymentIntentSucceeded c1Pi [c1Detailless]).map
      (fun st => countByPaymentIntent "pi_1" (saveStore c1Input st)) =
      some 2 := by
  exact ⟨⟨rfl, rfl, rfl⟩, by decide⟩

/-- C1 (amended): notification A (a completed, paid checkout session carrying
paymentIntentId X, processed through the frontend session-save path - the
only path that handles checkout-session completion) and notification B
(payment_intent.succeeded with id X) applied sequentially in either order
converge to exactly one PaymentRecord resolvable by X, every record
resolvable by X ending with status succeeded, provided the store holds no
record matching X nor any record the save's wider identity filter can
capture: one with A's checkout-session id, or one with A's plan (reachable
through the unconditional plan+amount fallback clause). Without that
proviso order B-then-A can leave two records (see the counterexample). -/
theorem c1_convergence_one_record (i : SaveInput) (s : CheckoutSession)
    (pi : PaymentIntentObj) (ch : ChargeObj) (cd : CardObj)
    (X sid p : String) (price : Rat) (store : List PaymentRecord)
    (hs : i.session = some s)
    (hX : s.payment_intent = some X) (hXne : X ≠ "")
    (hsid : s.id = some sid) (hsidne : sid ≠ "")
    (hpaid : s.payment_status = some "paid")
    (hmeta : s.metadata_planId = some p) (hpne : p ≠ "")
    (hplan : i.plans p = some price)
    (hpiid : pi.id = X)
    (hch : pi.charges = [ch]) (hcd : ch.card = some cd)
    (hstore : ∀ r ∈ store, r.stripePaymentIntentId ≠ some X ∧
      r.stripeCheckoutSessionId ≠ some sid ∧ r.plan ≠ some p) :
    (∃ stAB, handlePaymentIntentSucceeded pi (saveStore i store) = some stAB ∧
      countByPaymentIntent X stAB = 1 ∧
      ∀ r ∈ stAB, r.stripePaymentIntentId = some X →
        r.status = .succeeded) ∧
    (∃ stB, handlePaymentIntentSucceeded pi store = some stB ∧
      countByPaymentIntent X (saveStore i stB) = 1 ∧
      ∀ r ∈ saveStore i stB, r.stripePaymentIntentId = some X →
        r.status = .succeeded) := by
  have hplanId : strOr (i.session.bind (·.metadata_planId))
      i.planFromClientId = some p := by
    simp [hs, Option.bind, hmeta, strOr, hpne]
  set pd := frontendPaymentData i p price with hpd
  have hpdpi : pd.stripePaymentIntentId = some X := by
    rw [hpd, frontendPaymentData_stripePaymentIntentId]
    simp [hs, Option.bind, hX, strOrNull, strOr, hXne]
  have hpdstat : pd.status = .succeeded :=
    frontendPaymentData_status_paid i p price s hs hpaid
  have hSpi : strOrNull (i.session.bind (·.payment_intent)) = some X := by
    simp [hs, Option.bind, hX, strOrNull, strOr, hXne]
  have hSsid : strOrNull (i.session.bind (·.id)) = some sid := by
    simp [hs, Option.bind, hsid, strOrNull, strOr, hsidne]
  set filt := buildFrontendFilter (some X) (some sid) p pd.amount with hfilt
  have hsave : ∀ st, saveStore i st =
      upsert (filterMatches filt) (applyFrontendData pd) defaultRecord st := by
    intro st
    rw [saveStore_success i p price st hplanId hpne hplan, hSpi, hSsid]
  have hnoA : ∀ r ∈ store, filterMatches filt r = false := by
    intro r hr
    obtain ⟨h1, h2, h3⟩ := hstore r hr
    simp [hfilt, filterMatches, buildFrontendFilter, clauseMatches,
      h1, h2, h3]
  have hnoB : ∀ r ∈ store,
      (r.stripePaymentIntentId == some pi.id) = false := by
    intro r hr
    simp [hpiid, (hstore r hr).1]
  have hcount : ∀ y : PaymentRecord, y.stripePaymentIntentId = some X →
      countByPaymentIntent X (store ++ [y]) = 1 := by
    intro y hy
    unfold countByPaymentIntent
    rw [List.filter_append]
    have hnil : store.filter
        (fun r => r.stripePaymentIntentId == some X) = [] := by
      rw [List.filter_eq_nil_iff]
      intro a ha
      simp [(hstore a ha).1]
    rw [hnil]
    simp [hy]
  have hmemstat : ∀ y : PaymentRecord, y.status = .succeeded →
      ∀ r ∈ store ++ [y], r.stripePaymentIntentId = some X →
        r.status = .succeeded := by
    intro y hy r hr hrpi
    rcases List.mem_append.mp hr with h | h
    · exact absurd hrpi (hstore r h).1
    · rw [List.mem_singleton.mp h]
      exact hy
  constructor
  · -- order A then B
    have hA : saveStore i store =
        store ++ [applyFrontendData pd defaultRecord] := by
      rw [hsave store,
        upsert_of_no_match _ _ _ _ (any_eq_false_of_forall _ _ hnoA)]
    set recA := applyFrontendData pd defaultRecord with hrecA
    have hrecApi : recA.stripePaymentIntentId = some X := hpdpi
    have hBafterA : handlePaymentIntentSucceeded pi (saveStore i store) =
        some (store ++ [piSucceededPatch pi ch cd recA]) := by
      rw [hA, handlePaymentIntentSucceeded_eq pi ch cd _ hch hcd]
      unfold upsert
      have hanyT : (store ++ [recA]).any
          (fun r => r.stripePaymentIntentId == some pi.id) = true := by
        rw [List.any_append]
        simp [hrecApi, hpiid]
      rw [if_pos hanyT,
        updateFirst_append_of_no_match _ _ _ _
          (any_eq_false_of_forall _ _ hnoB)]
      have hT : (recA.stripePaymentIntentId == some pi.id) = true := by
        simp [hrecApi, hpiid]
      simp [hT]
    refine ⟨store ++ [piSucceededPatch pi ch cd recA], hBafterA, ?_, ?_⟩
    · exact hcount _ hrecApi
    · exact hmemstat _ rfl
  · -- order B then A
    set baseB : PaymentRecord :=
      { defaultRecord with stripePaymentIntentId := some pi.id } with hbaseB
    set recB := piSucceededPatch pi ch cd baseB with hrecB
    have hB : handlePaymentIntentSucceeded pi store =
        some (store ++ [recB]) := by
      rw [handlePaymentIntentSucceeded_eq pi ch cd store hch hcd,
        upsert_of_no_match _ _ _ _ (any_eq_false_of_forall _ _ hnoB)]
    have hrecBpi : recB.stripePaymentIntentId = some X := by
      show baseB.stripePaymentIntentId = some X
      rw [hbaseB]
      simp [hpiid]
    have hAafterB : saveStore i (store ++ [recB]) =
        store ++ [applyFrontendData pd recB] := by
      rw [hsave]
      unfold upsert
      have hmatchB : filterMatches filt recB = true := by
        simp [hfilt, filterMatches, buildFrontendFilter, clauseMatches,
          hrecBpi]
      have hanyT : (store ++ [recB]).any (filterMatches filt) = true := by
        rw [List.any_append]
        simp [hmatchB]
      rw [if_pos hanyT,
        updateFirst_append_of_no_match _ _ _ _
          (any_eq_false_of_forall _ _ hnoA)]
      simp [hmatchB]
    refine ⟨store ++ [recB], hB, ?_, ?_⟩
    · rw [hAafterB]
      exact hcount _ hpdpi
    · rw [hAafterB]
      exact hmemstat _ hpdstat

/-- C1 (witness): both delivery orders at concrete inputs on the empty
store. -/
theorem c1_convergence_one_record_witness :
    (∃ stAB, handlePaymentIntentSucceeded c1Pi (saveStore c1Input []) =
        some stAB ∧
      countByPaymentIntent "pi_1" stAB = 1 ∧
      ∀ r ∈ stAB, r.stripePaymentIntentId = some "pi_1" →
        r.status = .succeeded) ∧
    (∃ stB, handlePaymentIntentSucceeded c1Pi [] = some stB ∧
      countByPaymentIntent "pi_1" (saveStore c1Input stB) = 1 ∧
      ∀ r ∈ saveStore c1Input stB, r.stripePaymentIntentId = some "pi_1" →
        r.status = .succeeded) :=
  c1_convergence_one_record c1Input c1Session c1Pi
    { id := "ch_1", payment_intent := some "pi_1", payment_method := none
      card := some { brand := some "visa", funding := none
                     last4 := some "4242", exp_month := none
                     exp_year := none }
      raw := "ch1" }
    { brand := some "visa", funding := none, last4 := some "4242"
      exp_month := none, exp_year := none }
    "pi_1" "cs_1" "p1" 5 []
    rfl rfl (by decide) rfl (by decide) rfl rfl (by decide) (by decide)
    rfl rfl rfl (by simp)

/-- C6 (witness): concrete instance of the amended claim. -/
theorem c6_fallback_always_included_witness :
    Clause.byPlanAmount "p6" 7 ∈
      buildFrontendFilter (some "pi_6") none "p6" 7 :=
  c6_fallback_always_included (some "pi_6") none "p6" 7

/-- C10 (witness): concrete instance. -/
theorem c10_frontend_saves_invisible_to_history_witness :
    (∀ r ∈ runFrontendSaves [c10Input] [], r.user = none) ∧
    getPaymentHistory "user_1" (runFrontendSaves [c10Input] []) = [] :=
  c10_frontend_saves_invisible_to_history [c10Input] "user_1"
